import Mathlib

/-!
# The Python wrapper of the data source client (`client_python.cc`)

A shallow embedding of the four entry points of
`src/lib/python/isc/datasrc/client_python.cc`:

* `DataSourceClient_findZone`
* `DataSourceClient_getIterator`
* `DataSourceClient_getUpdater`
* `DataSourceClient_init`

The C functions return a `PyObject*` (or an `int`) and communicate errors through the
interpreter's error indicator.  Here the error indicator is an explicit piece of state
(`Interp.err`), a `NULL` return is `none`, and every call the wrapper makes into the
data source library is appended to a log (`Interp.calls`), so that "which backend call
was made, with which arguments" can be stated.  A C++ `throw` of the library is the
`error` branch of `Except Thrown _`, and the `catch` clauses are tried in source order.
-/

namespace DataSrc

/-! ## Values of the data source library -/

/-- An `isc::dns::Name`, identified by its textual form. -/
structure Name where
  text : String
deriving DecidableEq, Repr

/-- An `isc::dns::RRClass`, identified by its class code. -/
structure RRClass where
  code : Nat
deriving DecidableEq, Repr

/-- The class `RRClass::IN()`. -/
def RRClass.IN : RRClass := ⟨1⟩

/-- A zone finder object of the library, identified by a handle. -/
structure ZoneFinder where
  id : Nat
deriving DecidableEq, Repr

/-- A zone iterator object of the library, identified by a handle. -/
structure ZoneIterator where
  id : Nat
deriving DecidableEq, Repr

/-- A zone updater object of the library, identified by a handle. -/
structure ZoneUpdater where
  id : Nat
deriving DecidableEq, Repr

/-- A database accessor object of the library, identified by a handle. -/
structure DatabaseAccessor where
  id : Nat
deriving DecidableEq, Repr

/-- The shared pointer `ZoneFinderPtr`; `none` is the empty pointer. -/
abbrev ZoneFinderPtr := Option ZoneFinder

/-- The shared pointer `ZoneIteratorPtr`; `none` is the empty pointer. -/
abbrev ZoneIteratorPtr := Option ZoneIterator

/-- The shared pointer `ZoneUpdaterPtr`; `none` is the empty pointer. -/
abbrev ZoneUpdaterPtr := Option ZoneUpdater

/-- Modelled from the spec: the enumeration `result::Result` is declared in
`datasrc/result.h`, which is not part of the wrapper; section 4.1 lists the codes that
`findZone` yields. -/
inductive Result
  | EXACT_MATCH
  | PARTIAL_MATCH
  | NOT_FOUND
deriving DecidableEq, Repr

/-- The value `DataSourceClient::FindResult` returned by `findZone`. -/
structure FindResult where
  code : Result
  zone_finder : ZoneFinderPtr
deriving DecidableEq, Repr

/-- A value thrown by the library, classified by the `catch` clauses of the wrapper that
can bind it.  `isc::NotImplemented` and `DataSourceError` are classes with a `what()`
member that the wrapper lists before `std::exception`; every other class derived from
`std::exception` is `stdException`; `other` is a thrown value that is not a
`std::exception` at all. -/
inductive Thrown
  | notImplemented (what : String)
  | dataSourceError (what : String)
  | stdException (what : String)
  | other
deriving DecidableEq, Repr

/-- The clause `catch (const isc::NotImplemented& ne)`: the `what()` of the bound object
when the clause matches. -/
def Thrown.asNotImplemented : Thrown → Option String
  | .notImplemented w => some w
  | _ => none

/-- The clause `catch (const DataSourceError& dse)`. -/
def Thrown.asDataSourceError : Thrown → Option String
  | .dataSourceError w => some w
  | _ => none

/-- The clause `catch (const std::exception& exc)`: it binds every exception object. -/
def Thrown.asStdException : Thrown → Option String
  | .notImplemented w => some w
  | .dataSourceError w => some w
  | .stdException w => some w
  | .other => none

/-- The abstract class `DataSourceClient` as the wrapper uses it: three virtual methods,
each of which either returns or throws. -/
structure DataSourceClient where
  findZone : Name → Except Thrown FindResult
  getIterator : Name → Except Thrown ZoneIteratorPtr
  getUpdater : Name → Bool → Except Thrown ZoneUpdaterPtr

/-- The two constructors of the library that `DataSourceClient_init` calls; each may
throw. -/
structure Library where
  SQLite3Accessor : String → String → Except Thrown DatabaseAccessor
  DatabaseClient : RRClass → DatabaseAccessor → Except Thrown DataSourceClient

/-! ## Python objects and the interpreter state -/

/-- The Python objects that occur as arguments or results of the wrapper. -/
inductive PyObject
  | Py_None
  | Py_True
  | Py_False
  | Long (n : Int)
  | Unicode (s : String)
  | Name (n : Name)
  | RRClass (c : RRClass)
  | UInt (r : Result)
  | ZoneFinder (p : ZoneFinderPtr)
  | ZoneIterator (p : ZoneIteratorPtr)
  | ZoneUpdater (p : ZoneUpdaterPtr)
  | Tuple2 (a b : PyObject)
deriving DecidableEq, Repr

/-- The type objects of the objects above. -/
inductive PyTypeObject
  | NoneType
  | PyBool_Type
  | PyLong_Type
  | PyUnicode_Type
  | name_type
  | rrclass_type
  | zonefinder_type
  | zoneiterator_type
  | zoneupdater_type
  | PyTuple_Type
deriving DecidableEq, Repr

/-- The type of an object, `Py_TYPE(o)`. -/
def Py_TYPE : PyObject → PyTypeObject
  | .Py_None => .NoneType
  | .Py_True => .PyBool_Type
  | .Py_False => .PyBool_Type
  | .Long _ => .PyLong_Type
  | .Unicode _ => .PyUnicode_Type
  | .Name _ => .name_type
  | .RRClass _ => .rrclass_type
  | .UInt _ => .PyLong_Type
  | .ZoneFinder _ => .zonefinder_type
  | .ZoneIterator _ => .zoneiterator_type
  | .ZoneUpdater _ => .zoneupdater_type
  | .Tuple2 _ _ => .PyTuple_Type

/-- The check made by the format unit `O!`: the object's type is the given type or a
subtype of it (`bool` is a subtype of `int`). -/
def PyObject_TypeCheck (o : PyObject) (t : PyTypeObject) : Bool :=
  Py_TYPE o == t || (Py_TYPE o == .PyBool_Type && t == .PyLong_Type)

/-- The macro `PyBool_Check`. -/
def PyBool_Check (o : PyObject) : Bool :=
  Py_TYPE o == .PyBool_Type

/-- The Python `bool` object of a truth value. -/
def PyBool_FromLong (b : Bool) : PyObject :=
  if b then .Py_True else .Py_False

/-- The exception classes the wrapper can raise. -/
inductive PyExcType
  | DataSourceException (name : String)
  | PyExc_RuntimeError
  | PyExc_TypeError
  | PyExc_ValueError
deriving DecidableEq, Repr

/-- Modelled from the spec: `getDataSourceException` is defined in `datasrc.cc`, which is
not part of the wrapper; by section 6 error signals are typed, so the exception class the
data source module exports under a name is determined by that name. -/
def getDataSourceException (name : String) : PyExcType :=
  .DataSourceException name

/-- A raised exception: its class and its message.  The message is `none` for the
exceptions that `PyArg_ParseTuple` raises, whose text the interpreter composes. -/
structure PyErr where
  type : PyExcType
  message : Option String
deriving DecidableEq, Repr

/-- A call of the wrapper into the data source library. -/
inductive Call
  | findZone (name : Name)
  | getIterator (name : Name)
  | getUpdater (name : Name) (replace : Bool)
  | SQLite3Accessor (file : String) (rrclass : String)
  | DatabaseClient (rrclass : RRClass) (accessor : DatabaseAccessor)
deriving DecidableEq, Repr

/-- The state around a wrapper call: the interpreter's error indicator (`none` when no
error is set) and the log of the calls made into the library so far. -/
structure Interp where
  err : Option PyErr
  calls : List Call
deriving DecidableEq, Repr

/-- The state in which the interpreter enters a wrapper: no error set, no call made. -/
def Interp.clean : Interp := ⟨none, []⟩

/-- `PyErr_SetString(type, msg)`. -/
def PyErr_SetString (type : PyExcType) (msg : String) (st : Interp) : Interp :=
  { st with err := some ⟨type, some msg⟩ }

/-- Append a library call to the log. -/
def Interp.record (st : Interp) (c : Call) : Interp :=
  { st with calls := st.calls ++ [c] }

/-- The exception `PyArg_ParseTuple` leaves in the error indicator when the number or the
type of the arguments is wrong: `TypeError`. -/
def parseFailure (st : Interp) : Interp :=
  { st with err := some ⟨.PyExc_TypeError, none⟩ }

/-- `PyArg_ParseTuple(args, "O!", &type, &o)`: exactly one argument, of the given type. -/
def PyArg_ParseTuple_Ocheck (args : List PyObject) (type : PyTypeObject) (st : Interp) :
    Option PyObject × Interp :=
  match args with
  | [o] => if PyObject_TypeCheck o type then (some o, st) else (none, parseFailure st)
  | _ => (none, parseFailure st)

/-- `PyArg_ParseTuple(args, "O!O", &type, &o1, &o2)`: exactly two arguments, the first of
the given type, the second any object. -/
def PyArg_ParseTuple_OcheckO (args : List PyObject) (type : PyTypeObject) (st : Interp) :
    Option (PyObject × PyObject) × Interp :=
  match args with
  | [o1, o2] =>
    if PyObject_TypeCheck o1 type then (some (o1, o2), st) else (none, parseFailure st)
  | _ => (none, parseFailure st)

/-- The exception `PyArg_ParseTuple` leaves in the error indicator when the unit `s`
meets a `str` with an embedded null character: `ValueError` (interpreters older than 3.5
raised `TypeError` here). -/
def embeddedNullFailure (st : Interp) : Interp :=
  { st with err := some ⟨.PyExc_ValueError, none⟩ }

/-- `PyArg_ParseTuple(args, "s", &str)`: exactly one argument, a `str` without an embedded
null character; its text is handed over as a C string.  A wrong number of arguments or an
argument that is not a `str` raises `TypeError`, an embedded null character raises
`ValueError`. -/
def PyArg_ParseTuple_s (args : List PyObject) (st : Interp) : Option String × Interp :=
  match args with
  | [.Unicode s] =>
    if Char.ofNat 0 ∈ s.data then (none, embeddedNullFailure st) else (some s, st)
  | _ => (none, parseFailure st)

/-- `PyName_ToName`: the `Name` held by a Python object of `name_type`; undefined
(`none`) on any other object. -/
def PyName_ToName : PyObject → Option Name
  | .Name n => some n
  | _ => none

/-- Modelled from the spec: `createZoneFinderObject` is defined in `finder_python.cc`,
which is not part of the wrapper; by section 6 its result is an opaque handle, here the
Python object wrapping the given pointer. -/
def createZoneFinderObject (source : ZoneFinderPtr) : PyObject :=
  .ZoneFinder source

/-- Modelled from the spec: `createZoneIteratorObject` is defined in
`iterator_python.cc`, which is not part of the wrapper; by section 6 its result is an
opaque handle, here the Python object wrapping the given pointer. -/
def createZoneIteratorObject (source : ZoneIteratorPtr) : PyObject :=
  .ZoneIterator source

/-- Modelled from the spec: `createZoneUpdaterObject` is defined in `updater_python.cc`,
which is not part of the wrapper; by section 6 its result is an opaque handle, here the
Python object wrapping the given pointer. -/
def createZoneUpdaterObject (source : ZoneUpdaterPtr) : PyObject :=
  .ZoneUpdater source

/-- `Py_BuildValue("IN", r, o)`: the pair of the integer `r` and the object `o`. -/
def Py_BuildValue_IN (r : Result) (o : PyObject) : PyObject :=
  .Tuple2 (.UInt r) o

/-! ## The wrapper -/

/-- The class `s_DataSourceClient`: a Python object with the pointer `cppobj`, which is
`NULL` (`none`) until `DataSourceClient_init` installs a client. -/
structure s_DataSourceClient where
  cppobj : Option DataSourceClient

/-- The result of a wrapper method: the returned pointer (`none` is `NULL`) and the state
after the call. -/
abbrev MethodResult := Option PyObject × Interp

/-- The `catch` clauses of `DataSourceClient_findZone`, in source order. -/
def findZone_catch (t : Thrown) (st : Interp) : MethodResult :=
  match t.asStdException with
  | some what => (none, PyErr_SetString (getDataSourceException "Error") what st)
  | none => (none, PyErr_SetString (getDataSourceException "Error") "Unexpected exception" st)

/-- The `catch` clauses shared, clause for clause, by `DataSourceClient_getIterator` and
`DataSourceClient_getUpdater`, in source order. -/
def getIterator_catch (t : Thrown) (st : Interp) : MethodResult :=
  match t.asNotImplemented with
  | some what => (none, PyErr_SetString (getDataSourceException "NotImplemented") what st)
  | none =>
    match t.asDataSourceError with
    | some what => (none, PyErr_SetString (getDataSourceException "Error") what st)
    | none =>
      match t.asStdException with
      | some what => (none, PyErr_SetString (getDataSourceException "Error") what st)
      | none =>
        (none, PyErr_SetString (getDataSourceException "Error") "Unexpected exception" st)

/-- The function `DataSourceClient_findZone`.  The outer `none` is undefined behaviour
(a call through a `NULL` `cppobj`). -/
def DataSourceClient_findZone (self : s_DataSourceClient) (args : List PyObject)
    (st : Interp) : Option MethodResult :=
  match PyArg_ParseTuple_Ocheck args .name_type st with
  | (some name, st1) =>
    match self.cppobj, PyName_ToName name with
    | some cppobj, some n =>
      let st2 := st1.record (.findZone n)
      match cppobj.findZone n with
      | .ok find_result =>
        let r := find_result.code
        let zfp := find_result.zone_finder
        some (some (Py_BuildValue_IN r (createZoneFinderObject zfp)), st2)
      | .error t => some (findZone_catch t st2)
    | _, _ => none
  | (none, st1) => some (none, st1)

/-- The function `DataSourceClient_getIterator`. -/
def DataSourceClient_getIterator (self : s_DataSourceClient) (args : List PyObject)
    (st : Interp) : Option MethodResult :=
  match PyArg_ParseTuple_Ocheck args .name_type st with
  | (some name_obj, st1) =>
    match self.cppobj, PyName_ToName name_obj with
    | some cppobj, some n =>
      let st2 := st1.record (.getIterator n)
      match cppobj.getIterator n with
      | .ok it => some (some (createZoneIteratorObject it), st2)
      | .error t => some (getIterator_catch t st2)
    | _, _ => none
  | (none, st1) => some (none, st1)

/-- The function `DataSourceClient_getUpdater`. -/
def DataSourceClient_getUpdater (self : s_DataSourceClient) (args : List PyObject)
    (st : Interp) : Option MethodResult :=
  match PyArg_ParseTuple_OcheckO args .name_type st with
  | (some (name_obj, replace_obj), st1) =>
    if PyBool_Check replace_obj then
      let replace := replace_obj != .Py_False
      match self.cppobj, PyName_ToName name_obj with
      | some cppobj, some n =>
        let st2 := st1.record (.getUpdater n replace)
        match cppobj.getUpdater n replace with
        | .ok updater =>
          if updater.isNone then
            some (some .Py_None, st2)
          else
            some (some (createZoneUpdaterObject updater), st2)
        | .error t => some (getIterator_catch t st2)
      | _, _ => none
    else
      some (none, st1)
  | (none, st1) => some (none, st1)

/-- The `catch` clauses of `DataSourceClient_init`, in source order. -/
def init_catch (t : Thrown) (self : s_DataSourceClient) (st : Interp) :
    Int × s_DataSourceClient × Interp :=
  match t.asStdException with
  | some what =>
    (-1, self, PyErr_SetString (getDataSourceException "Error")
      ("Failed to construct DataSourceClient object: " ++ what) st)
  | none =>
    (-1, self, PyErr_SetString .PyExc_RuntimeError
      "Unexpected exception in constructing DataSourceClient" st)

/-- The function `DataSourceClient_init`: the returned `int`, the object after the call
and the state after the call. -/
def DataSourceClient_init (lib : Library) (self : s_DataSourceClient)
    (args : List PyObject) (st : Interp) : Int × s_DataSourceClient × Interp :=
  match PyArg_ParseTuple_s args st with
  | (some db_file_name, st1) =>
    let st2 := st1.record (.SQLite3Accessor db_file_name "IN")
    match lib.SQLite3Accessor db_file_name "IN" with
    | .ok sqlite3_accessor =>
      let st3 := st2.record (.DatabaseClient RRClass.IN sqlite3_accessor)
      match lib.DatabaseClient RRClass.IN sqlite3_accessor with
      | .ok client => (0, { self with cppobj := some client }, st3)
      | .error t => init_catch t self st3
    | .error t => init_catch t self st2
  | (none, st1) => (-1, self, st1)

/-! ## Concrete clients and libraries used to instantiate the theorems -/

/-- A client with one zone, `example.org.`, a name `broken.` on which the backend is
faulty, names on which it lacks a capability, and no other zone. -/
def sampleClient : DataSourceClient where
  findZone n :=
    if n.text = "example.org." then .ok ⟨.EXACT_MATCH, some ⟨1⟩⟩
    else if n.text = "broken." then .error (.stdException "disk I/O error")
    else if n.text = "unsupported." then .error (.notImplemented "lookup is not supported")
    else .ok ⟨.NOT_FOUND, none⟩
  getIterator n :=
    if n.text = "example.org." then .ok (some ⟨2⟩)
    else if n.text = "broken." then .error (.stdException "disk I/O error")
    else .error (.notImplemented "iteration is not supported")
  getUpdater n replace :=
    if n.text = "example.org." then .ok (some ⟨if replace then 3 else 4⟩)
    else if n.text = "broken." then .error (.stdException "disk I/O error")
    else if n.text = "readonly." then .error (.notImplemented "updates are not supported")
    else .ok none

/-- A client whose backend reports an absent zone and a zone that is already being
updated by throwing exceptions of classes the wrapper does not name, and an I/O fault by
throwing `DataSourceError`. -/
def strictClient : DataSourceClient where
  findZone _ := .ok ⟨.NOT_FOUND, none⟩
  getIterator n :=
    if n.text = "absent." then .error (.stdException "no such zone")
    else .error (.dataSourceError "disk I/O error")
  getUpdater n _ :=
    if n.text = "absent." then .error (.stdException "no such zone")
    else if n.text = "busy." then .error (.stdException "zone is already being updated")
    else .error (.dataSourceError "disk I/O error")

/-- A library whose constructors succeed. -/
def goodLibrary : Library where
  SQLite3Accessor _ _ := .ok ⟨7⟩
  DatabaseClient _ _ := .ok sampleClient

/-- A library whose accessor constructor throws an exception object. -/
def noFileLibrary : Library where
  SQLite3Accessor _ _ := .error (.stdException "unable to open database file")
  DatabaseClient _ _ := .ok sampleClient

/-- A library whose accessor constructor throws a value that is not an exception
object. -/
def oddLibrary : Library where
  SQLite3Accessor _ _ := .error .other
  DatabaseClient _ _ := .ok sampleClient

/-- A library whose accessor constructor succeeds and whose client constructor throws. -/
def badClientLibrary : Library where
  SQLite3Accessor _ _ := .ok ⟨7⟩
  DatabaseClient _ _ := .error (.stdException "accessor rejected")

/-! ## Evaluation lemmas -/

/-- On a single `Name` argument `DataSourceClient_findZone` makes the backend call and
either builds the pair or runs its `catch` clauses. -/
theorem findZone_eval (c : DataSourceClient) (n : Name) (st : Interp) :
    DataSourceClient_findZone ⟨some c⟩ [.Name n] st =
      some (match c.findZone n with
        | .ok fr =>
          (some (Py_BuildValue_IN fr.code (createZoneFinderObject fr.zone_finder)),
            st.record (.findZone n))
        | .error t => findZone_catch t (st.record (.findZone n))) := by
  rcases h : c.findZone n with t | fr <;>
    simp [DataSourceClient_findZone, PyArg_ParseTuple_Ocheck, PyObject_TypeCheck, Py_TYPE,
      PyName_ToName, h]

/-- On a single `Name` argument `DataSourceClient_getIterator` makes the backend call
and either builds the iterator object or runs its `catch` clauses. -/
theorem getIterator_eval (c : DataSourceClient) (n : Name) (st : Interp) :
    DataSourceClient_getIterator ⟨some c⟩ [.Name n] st =
      some (match c.getIterator n with
        | .ok it => (some (createZoneIteratorObject it), st.record (.getIterator n))
        | .error t => getIterator_catch t (st.record (.getIterator n))) := by
  rcases h : c.getIterator n with t | it <;>
    simp [DataSourceClient_getIterator, PyArg_ParseTuple_Ocheck, PyObject_TypeCheck, Py_TYPE,
      PyName_ToName, h]

/-- On a `Name` and a `bool` argument `DataSourceClient_getUpdater` makes the backend
call and returns `None`, the updater object, or runs its `catch` clauses. -/
theorem getUpdater_eval (c : DataSourceClient) (n : Name) (b : Bool) (st : Interp) :
    DataSourceClient_getUpdater ⟨some c⟩ [.Name n, PyBool_FromLong b] st =
      some (match c.getUpdater n b with
        | .ok none => (some .Py_None, st.record (.getUpdater n b))
        | .ok (some u) =>
          (some (createZoneUpdaterObject (some u)), st.record (.getUpdater n b))
        | .error t => getIterator_catch t (st.record (.getUpdater n b))) := by
  have hT : (PyObject.Py_True != PyObject.Py_False) = true := by decide
  have hF : (PyObject.Py_False != PyObject.Py_False) = false := by decide
  cases b <;> rcases h : c.getUpdater n _ with t | (_ | u) <;>
    simp [DataSourceClient_getUpdater, PyArg_ParseTuple_OcheckO, PyObject_TypeCheck, Py_TYPE,
      PyName_ToName, PyBool_FromLong, PyBool_Check, hT, hF, h]

/-- The `catch` clauses of `getIterator` and `getUpdater` always return `NULL`, leave the
call log alone and set an exception with a message. -/
theorem getIterator_catch_eq (t : Thrown) (st : Interp) :
    getIterator_catch t st =
      (none, ⟨some ⟨if t.asNotImplemented.isSome then getDataSourceException "NotImplemented"
                      else getDataSourceException "Error",
                    some (t.asStdException.getD "Unexpected exception")⟩, st.calls⟩) := by
  cases t <;> rfl

/-- The `catch` clauses of `findZone` always return `NULL`, leave the call log alone and
set the exception `Error`. -/
theorem findZone_catch_eq (t : Thrown) (st : Interp) :
    findZone_catch t st =
      (none, ⟨some ⟨getDataSourceException "Error",
                    some (t.asStdException.getD "Unexpected exception")⟩, st.calls⟩) := by
  cases t <;> rfl

/-! ## The three client operations -/

/-- C1: `DataSourceClient_getUpdater` is tri-state.  On a `Name` and a `bool` argument:
an empty updater from the backend gives `None` and sets no error; a non-empty updater
gives the updater object built from exactly that updater and sets no error; and the
wrapper returns `NULL` exactly when the backend call throws. -/
theorem getUpdater_tristate (c : DataSourceClient) (n : Name) (b : Bool) (st : Interp) :
    (c.getUpdater n b = .ok none →
      DataSourceClient_getUpdater ⟨some c⟩ [.Name n, PyBool_FromLong b] st =
        some (some .Py_None, ⟨st.err, st.calls ++ [.getUpdater n b]⟩)) ∧
    (∀ u : ZoneUpdater, c.getUpdater n b = .ok (some u) →
      DataSourceClient_getUpdater ⟨some c⟩ [.Name n, PyBool_FromLong b] st =
        some (some (createZoneUpdaterObject (some u)),
          ⟨st.err, st.calls ++ [.getUpdater n b]⟩)) ∧
    (∃ r : MethodResult,
      DataSourceClient_getUpdater ⟨some c⟩ [.Name n, PyBool_FromLong b] st = some r ∧
      (r.1 = none ↔ ∃ t, c.getUpdater n b = .error t)) := by
  refine ⟨fun h => ?_, fun u h => ?_, ?_⟩
  · rw [getUpdater_eval, h]; rfl
  · rw [getUpdater_eval, h]; rfl
  · rw [getUpdater_eval]
    refine ⟨_, rfl, ?_⟩
    rcases h : c.getUpdater n b with t | (_ | u)
    · simp [getIterator_catch_eq]
    · simp
    · simp

/-- The three outcomes of C1 on `sampleClient`: `None` for a name without a zone, the
updater object for `example.org.`, `NULL` for the faulty name. -/
theorem getUpdater_tristate_witness :
    DataSourceClient_getUpdater ⟨some sampleClient⟩ [.Name ⟨"new."⟩, PyBool_FromLong false]
        Interp.clean =
      some (some .Py_None, ⟨none, [.getUpdater ⟨"new."⟩ false]⟩) ∧
    DataSourceClient_getUpdater ⟨some sampleClient⟩
        [.Name ⟨"example.org."⟩, PyBool_FromLong true] Interp.clean =
      some (some (createZoneUpdaterObject (some ⟨3⟩)),
        ⟨none, [.getUpdater ⟨"example.org."⟩ true]⟩) ∧
    (∃ r : MethodResult,
      DataSourceClient_getUpdater ⟨some sampleClient⟩
          [.Name ⟨"broken."⟩, PyBool_FromLong true] Interp.clean = some r ∧
      (r.1 = none ↔ ∃ t, sampleClient.getUpdater ⟨"broken."⟩ true = .error t)) :=
  ⟨(getUpdater_tristate sampleClient ⟨"new."⟩ false Interp.clean).1 rfl,
   (getUpdater_tristate sampleClient ⟨"example.org."⟩ true Interp.clean).2.1 ⟨3⟩ rfl,
   (getUpdater_tristate sampleClient ⟨"broken."⟩ true Interp.clean).2.2⟩

/-- C2: `DataSourceClient_findZone` never raises for "not found".  Whenever the backend
call returns a `FindResult` (whatever its code, with or without a finder), the wrapper
returns the pair of the unchanged result code and the finder object built from the
result's `zone_finder`, and sets no error. -/
theorem findZone_returns_pair (c : DataSourceClient) (n : Name) (st : Interp)
    (fr : FindResult) (h : c.findZone n = .ok fr) :
    DataSourceClient_findZone ⟨some c⟩ [.Name n] st =
      some (some (.Tuple2 (.UInt fr.code) (createZoneFinderObject fr.zone_finder)),
        ⟨st.err, st.calls ++ [.findZone n]⟩) := by
  rw [findZone_eval, h]; rfl

/-- C2 on `sampleClient` at a name without a zone: the pair of `NOT_FOUND` and the finder
object of the empty pointer, no error set. -/
theorem findZone_returns_pair_witness :
    sampleClient.findZone ⟨"nowhere."⟩ = .ok ⟨.NOT_FOUND, none⟩ ∧
    DataSourceClient_findZone ⟨some sampleClient⟩ [.Name ⟨"nowhere."⟩] Interp.clean =
      some (some (.Tuple2 (.UInt .NOT_FOUND) (createZoneFinderObject none)),
        ⟨none, [.findZone ⟨"nowhere."⟩]⟩) :=
  ⟨rfl, findZone_returns_pair sampleClient ⟨"nowhere."⟩ Interp.clean ⟨.NOT_FOUND, none⟩ rfl⟩

/-- C3: in each of `findZone`, `getIterator` and `getUpdater`, a fault of the backend call
that is not the capability-gap fault makes the wrapper return `NULL` and raise the data
source exception `Error`; the message is the fault's own message when the fault is a
standard exception and "Unexpected exception" otherwise. -/
theorem faults_raise_Error (c : DataSourceClient) (n : Name) (b : Bool) (st : Interp)
    (t : Thrown) (hgap : t.asNotImplemented = none) :
    (c.findZone n = .error t →
      DataSourceClient_findZone ⟨some c⟩ [.Name n] st =
        some (none, ⟨some ⟨getDataSourceException "Error",
          some (t.asStdException.getD "Unexpected exception")⟩,
          st.calls ++ [.findZone n]⟩)) ∧
    (c.getIterator n = .error t →
      DataSourceClient_getIterator ⟨some c⟩ [.Name n] st =
        some (none, ⟨some ⟨getDataSourceException "Error",
          some (t.asStdException.getD "Unexpected exception")⟩,
          st.calls ++ [.getIterator n]⟩)) ∧
    (c.getUpdater n b = .error t →
      DataSourceClient_getUpdater ⟨some c⟩ [.Name n, PyBool_FromLong b] st =
        some (none, ⟨some ⟨getDataSourceException "Error",
          some (t.asStdException.getD "Unexpected exception")⟩,
          st.calls ++ [.getUpdater n b]⟩)) := by
  refine ⟨fun h => ?_, fun h => ?_, fun h => ?_⟩
  · rw [findZone_eval, h]; simp only [findZone_catch_eq]; rfl
  · rw [getIterator_eval, h]; simp only [getIterator_catch_eq, hgap]; rfl
  · rw [getUpdater_eval, h]; simp only [getIterator_catch_eq, hgap]; rfl

/-- C3 on `sampleClient` at the faulty name: all three operations return `NULL` and
raise `Error` with the backend's message. -/
theorem faults_raise_Error_witness :
    DataSourceClient_findZone ⟨some sampleClient⟩ [.Name ⟨"broken."⟩] Interp.clean =
      some (none, ⟨some ⟨getDataSourceException "Error", some "disk I/O error"⟩,
        [.findZone ⟨"broken."⟩]⟩) ∧
    DataSourceClient_getIterator ⟨some sampleClient⟩ [.Name ⟨"broken."⟩] Interp.clean =
      some (none, ⟨some ⟨getDataSourceException "Error", some "disk I/O error"⟩,
        [.getIterator ⟨"broken."⟩]⟩) ∧
    DataSourceClient_getUpdater ⟨some sampleClient⟩
        [.Name ⟨"broken."⟩, PyBool_FromLong false] Interp.clean =
      some (none, ⟨some ⟨getDataSourceException "Error", some "disk I/O error"⟩,
        [.getUpdater ⟨"broken."⟩ false]⟩) :=
  have h := faults_raise_Error sampleClient ⟨"broken."⟩ false Interp.clean
    (.stdException "disk I/O error") rfl
  ⟨h.1 rfl, h.2.1 rfl, h.2.2 rfl⟩

/-- C4: a capability gap is reported as the distinct kind `NotImplemented`.  If the
backend's `getIterator` (respectively `getUpdater`, for either replace flag) throws the
not-implemented fault with message `m`, the wrapper returns `NULL` and raises the data
source exception `NotImplemented` with message `m`, which is not the exception `Error`. -/
theorem capability_gap_raises_NotImplemented (c : DataSourceClient) (n : Name) (b : Bool)
    (st : Interp) (m : String) :
    (c.getIterator n = .error (.notImplemented m) →
      DataSourceClient_getIterator ⟨some c⟩ [.Name n] st =
        some (none, ⟨some ⟨getDataSourceException "NotImplemented", some m⟩,
          st.calls ++ [.getIterator n]⟩)) ∧
    (c.getUpdater n b = .error (.notImplemented m) →
      DataSourceClient_getUpdater ⟨some c⟩ [.Name n, PyBool_FromLong b] st =
        some (none, ⟨some ⟨getDataSourceException "NotImplemented", some m⟩,
          st.calls ++ [.getUpdater n b]⟩)) ∧
    getDataSourceException "NotImplemented" ≠ getDataSourceException "Error" := by
  refine ⟨fun h => ?_, fun h => ?_, by decide⟩
  · rw [getIterator_eval, h]; rfl
  · rw [getUpdater_eval, h]; rfl

/-- C4 on `sampleClient`: iteration of a zone it cannot enumerate and an update of the
read-only zone both raise `NotImplemented` with the backend's message. -/
theorem capability_gap_raises_NotImplemented_witness :
    DataSourceClient_getIterator ⟨some sampleClient⟩ [.Name ⟨"readonly."⟩] Interp.clean =
      some (none, ⟨some ⟨getDataSourceException "NotImplemented",
        some "iteration is not supported"⟩, [.getIterator ⟨"readonly."⟩]⟩) ∧
    DataSourceClient_getUpdater ⟨some sampleClient⟩
        [.Name ⟨"readonly."⟩, PyBool_FromLong true] Interp.clean =
      some (none, ⟨some ⟨getDataSourceException "NotImplemented",
        some "updates are not supported"⟩, [.getUpdater ⟨"readonly."⟩ true]⟩) :=
  ⟨(capability_gap_raises_NotImplemented sampleClient ⟨"readonly."⟩ true Interp.clean
      "iteration is not supported").1 rfl,
   (capability_gap_raises_NotImplemented sampleClient ⟨"readonly."⟩ true Interp.clean
      "updates are not supported").2.1 rfl⟩

/-- C6: `DataSourceClient_getUpdater` forwards the replace mode faithfully.  For every
name `n` and boolean `b`, what the wrapper returns is determined by the backend's own
answer to `getUpdater` with name `n` and replace flag `b`, that flag and no other: `None`
for an empty updater, the object of exactly the updater returned, `NULL` with the fault's
exception when it throws; and the calls made into the library are exactly one call of
`getUpdater` with name `n` and flag `b`. -/
theorem getUpdater_forwards_replace (c : DataSourceClient) (n : Name) (b : Bool)
    (st : Interp) :
    DataSourceClient_getUpdater ⟨some c⟩ [.Name n, PyBool_FromLong b] st =
      some (match c.getUpdater n b with
        | .ok none => (some .Py_None, ⟨st.err, st.calls ++ [.getUpdater n b]⟩)
        | .ok (some u) =>
          (some (createZoneUpdaterObject (some u)), ⟨st.err, st.calls ++ [.getUpdater n b]⟩)
        | .error t =>
          (none, ⟨some ⟨if t.asNotImplemented.isSome
                then getDataSourceException "NotImplemented"
                else getDataSourceException "Error",
              some (t.asStdException.getD "Unexpected exception")⟩,
            st.calls ++ [.getUpdater n b]⟩)) := by
  rw [getUpdater_eval]
  rcases c.getUpdater n b with t | (_ | u)
  · simp only [getIterator_catch_eq]; rfl
  · rfl
  · rfl

/-- C6 on `sampleClient`, whose backend hands out updater 3 for a replace transaction of
`example.org.` and updater 4 for an incremental one: the flag `True` yields the object of
updater 3 and `False` that of updater 4, each after one logged call with that flag. -/
theorem getUpdater_forwards_replace_witness :
    DataSourceClient_getUpdater ⟨some sampleClient⟩ [.Name ⟨"example.org."⟩, .Py_True]
        Interp.clean =
      some (some (createZoneUpdaterObject (some ⟨3⟩)),
        ⟨none, [.getUpdater ⟨"example.org."⟩ true]⟩) ∧
    DataSourceClient_getUpdater ⟨some sampleClient⟩ [.Name ⟨"example.org."⟩, .Py_False]
        Interp.clean =
      some (some (createZoneUpdaterObject (some ⟨4⟩)),
        ⟨none, [.getUpdater ⟨"example.org."⟩ false]⟩) :=
  ⟨getUpdater_forwards_replace sampleClient ⟨"example.org."⟩ true Interp.clean,
   getUpdater_forwards_replace sampleClient ⟨"example.org."⟩ false Interp.clean⟩

/-- C9, at the failing input: with a `Name` first and the integer 1 second, the backend
is not called and the wrapper returns `NULL` while the error indicator is left as it was,
so on entry without an error the failure carries no error. -/
theorem getUpdater_nonbool_sets_no_error (c : DataSourceClient) (n : Name) (st : Interp) :
    DataSourceClient_getUpdater ⟨some c⟩ [.Name n, .Long 1] st = some (none, st) ∧
    DataSourceClient_getUpdater ⟨some sampleClient⟩ [.Name ⟨"example.org."⟩, .Long 1]
      Interp.clean = some (none, ⟨none, []⟩) :=
  ⟨rfl, rfl⟩

/-- C10: `DataSourceClient_findZone` has a single error kind.  Every fault thrown by the
backend's `findZone`, the not-implemented fault included, makes the wrapper raise the data
source exception `Error`; and on no input does `findZone` leave the exception
`NotImplemented` in an error indicator that was clear on entry. -/
theorem findZone_single_error_kind :
    (∀ (c : DataSourceClient) (n : Name) (st : Interp) (t : Thrown),
      c.findZone n = .error t →
      DataSourceClient_findZone ⟨some c⟩ [.Name n] st =
        some (none, ⟨some ⟨getDataSourceException "Error",
          some (t.asStdException.getD "Unexpected exception")⟩,
          st.calls ++ [.findZone n]⟩)) ∧
    (∀ (self : s_DataSourceClient) (args : List PyObject) (st : Interp) (r : MethodResult),
      st.err = none → DataSourceClient_findZone self args st = some r →
      ∀ e : PyErr, r.2.err = some e → e.type ≠ getDataSourceException "NotImplemented") := by
  constructor
  · intro c n st t h
    rw [findZone_eval, h]; simp only [findZone_catch_eq]; rfl
  · intro self args st r hst h e he
    unfold DataSourceClient_findZone at h
    unfold PyArg_ParseTuple_Ocheck at h
    split at h
    · rename_i name st1 hp
      split at hp
      · split at hp
        · cases hp
          split at h
          · rename_i cppobj n0 _ _
            simp only [] at h
            split at h
            · cases h; simp [Interp.record, hst] at he
            · cases h
              rw [findZone_catch_eq] at he
              cases he
              simp [getDataSourceException]
          · cases h
        · cases hp
      · cases hp
    · rename_i st1 hp
      cases h
      split at hp
      · split at hp
        · cases hp
        · cases hp
          simp only [parseFailure] at he
          cases he
          decide
      · cases hp
        simp only [parseFailure] at he
        cases he
        decide

/-- C10 on `sampleClient`: the not-implemented fault thrown by its `findZone` is raised
as `Error`, and the error left by that call is not `NotImplemented`. -/
theorem findZone_single_error_kind_witness :
    DataSourceClient_findZone ⟨some sampleClient⟩ [.Name ⟨"unsupported."⟩] Interp.clean =
      some (none, ⟨some ⟨getDataSourceException "Error", some "lookup is not supported"⟩,
        [.findZone ⟨"unsupported."⟩]⟩) ∧
    PyErr.type ⟨getDataSourceException "Error", some "lookup is not supported"⟩ ≠
      getDataSourceException "NotImplemented" :=
  ⟨findZone_single_error_kind.1 sampleClient ⟨"unsupported."⟩ Interp.clean
     (.notImplemented "lookup is not supported") rfl,
   findZone_single_error_kind.2 ⟨some sampleClient⟩ [.Name ⟨"unsupported."⟩] Interp.clean
     (none, ⟨some ⟨getDataSourceException "Error", some "lookup is not supported"⟩,
        [.findZone ⟨"unsupported."⟩]⟩) rfl rfl _ rfl⟩

/-! ## Error kinds of `getIterator` and `getUpdater` -/

/-- C5 does not hold.  On `strictClient` the fault for an absent zone (from `getIterator`
and from `getUpdater`), the fault for a zone that is already being updated and the I/O
fault are all raised as the one exception `Error`; and whatever three faults a backend
throws, the `catch` clauses shared by `getIterator` and `getUpdater` raise the same
exception class for two of them. -/
theorem error_kinds_collapse :
    DataSourceClient_getIterator ⟨some strictClient⟩ [.Name ⟨"absent."⟩] Interp.clean =
      some (none, ⟨some ⟨getDataSourceException "Error", some "no such zone"⟩,
        [.getIterator ⟨"absent."⟩]⟩) ∧
    DataSourceClient_getUpdater ⟨some strictClient⟩ [.Name ⟨"absent."⟩, .Py_False]
        Interp.clean =
      some (none, ⟨some ⟨getDataSourceException "Error", some "no such zone"⟩,
        [.getUpdater ⟨"absent."⟩ false]⟩) ∧
    DataSourceClient_getUpdater ⟨some strictClient⟩ [.Name ⟨"busy."⟩, .Py_False]
        Interp.clean =
      some (none, ⟨some ⟨getDataSourceException "Error",
        some "zone is already being updated"⟩, [.getUpdater ⟨"busy."⟩ false]⟩) ∧
    DataSourceClient_getUpdater ⟨some strictClient⟩ [.Name ⟨"example.org."⟩, .Py_False]
        Interp.clean =
      some (none, ⟨some ⟨getDataSourceException "Error", some "disk I/O error"⟩,
        [.getUpdater ⟨"example.org."⟩ false]⟩) ∧
    (∀ (t₁ t₂ t₃ : Thrown) (st : Interp),
      (getIterator_catch t₁ st).2.err.map PyErr.type =
          (getIterator_catch t₂ st).2.err.map PyErr.type ∨
      (getIterator_catch t₁ st).2.err.map PyErr.type =
          (getIterator_catch t₃ st).2.err.map PyErr.type ∨
      (getIterator_catch t₂ st).2.err.map PyErr.type =
          (getIterator_catch t₃ st).2.err.map PyErr.type) := by
  refine ⟨rfl, rfl, rfl, rfl, ?_⟩
  intro t₁ t₂ t₃ st
  simp only [getIterator_catch_eq]
  cases t₁ <;> cases t₂ <;> cases t₃ <;> simp [Thrown.asNotImplemented]

/-- C5, amended: `getIterator` and `getUpdater` raise two exception classes only.  A fault
of the backend call is raised as `NotImplemented` when it is the capability-gap fault and
as `Error` otherwise, so a fault for an absent zone or for an updater that is still open
is raised as the same `Error` as an I/O fault; the message is the fault's own message when
the fault is a standard exception and "Unexpected exception" otherwise. -/
theorem getIterator_getUpdater_error_kinds (c : DataSourceClient) (n : Name) (b : Bool)
    (st : Interp) (t : Thrown) :
    (c.getIterator n = .error t →
      DataSourceClient_getIterator ⟨some c⟩ [.Name n] st =
        some (none, ⟨some ⟨if t.asNotImplemented.isSome
              then getDataSourceException "NotImplemented"
              else getDataSourceException "Error",
            some (t.asStdException.getD "Unexpected exception")⟩,
          st.calls ++ [.getIterator n]⟩)) ∧
    (c.getUpdater n b = .error t →
      DataSourceClient_getUpdater ⟨some c⟩ [.Name n, PyBool_FromLong b] st =
        some (none, ⟨some ⟨if t.asNotImplemented.isSome
              then getDataSourceException "NotImplemented"
              else getDataSourceException "Error",
            some (t.asStdException.getD "Unexpected exception")⟩,
          st.calls ++ [.getUpdater n b]⟩)) := by
  refine ⟨fun h => ?_, fun h => ?_⟩
  · rw [getIterator_eval, h]; simp only [getIterator_catch_eq]; rfl
  · rw [getUpdater_eval, h]; simp only [getIterator_catch_eq]; rfl

/-- The amended C5 on `strictClient`: the absent zone in `getIterator` and the busy zone
in `getUpdater` are both raised as `Error`, each with the backend's message. -/
theorem getIterator_getUpdater_error_kinds_witness :
    DataSourceClient_getIterator ⟨some strictClient⟩ [.Name ⟨"absent."⟩] Interp.clean =
      some (none, ⟨some ⟨getDataSourceException "Error", some "no such zone"⟩,
        [.getIterator ⟨"absent."⟩]⟩) ∧
    DataSourceClient_getUpdater ⟨some strictClient⟩
        [.Name ⟨"busy."⟩, PyBool_FromLong true] Interp.clean =
      some (none, ⟨some ⟨getDataSourceException "Error",
        some "zone is already being updated"⟩, [.getUpdater ⟨"busy."⟩ true]⟩) :=
  ⟨(getIterator_getUpdater_error_kinds strictClient ⟨"absent."⟩ true Interp.clean
      (.stdException "no such zone")).1 rfl,
   (getIterator_getUpdater_error_kinds strictClient ⟨"busy."⟩ true Interp.clean
      (.stdException "zone is already being updated")).2 rfl⟩

/-! ## Construction -/

/-- C7 does not hold as stated.  A constructor that throws an exception object makes
`DataSourceClient_init` raise the data source exception `Error`, the class the three
operations raise for backend faults, while a constructor that throws any other value makes
it raise `RuntimeError` with a fixed text: the failures of construction have no exception
class of their own, and not even one class in common. -/
theorem init_failure_kinds_differ :
    (DataSourceClient_init noFileLibrary ⟨none⟩ [.Unicode "zone.sqlite3"]
        Interp.clean).2.2.err =
      some ⟨getDataSourceException "Error",
        some "Failed to construct DataSourceClient object: unable to open database file"⟩ ∧
    (DataSourceClient_init oddLibrary ⟨none⟩ [.Unicode "zone.sqlite3"]
        Interp.clean).2.2.err =
      some ⟨.PyExc_RuntimeError,
        some "Unexpected exception in constructing DataSourceClient"⟩ ∧
    getDataSourceException "Error" ≠ PyExcType.PyExc_RuntimeError ∧
    (DataSourceClient_getIterator ⟨some sampleClient⟩ [.Name ⟨"broken."⟩]
        Interp.clean).map (fun r => r.2.err.map PyErr.type) =
      some (some (getDataSourceException "Error")) := by
  exact ⟨rfl, rfl, by decide, rfl⟩

/-- C7, amended.  When the argument parses to a file name and building the accessor or
the database client throws, `DataSourceClient_init` returns -1 and leaves the object
unchanged; it raises the data source exception `Error` with the text "Failed to construct
DataSourceClient object: " followed by the thrown exception's message when an exception
object was thrown, and `RuntimeError` with a fixed text otherwise.  It returns 0 exactly
when the argument parses and neither constructor throws, and then `cppobj` is the client
built; in every other case it returns -1 and the object is unchanged.  Whenever the
argument parses and both constructors return, it does return 0 and installs the client
the second constructor returned. -/
theorem init_outcome (lib : Library) (self : s_DataSourceClient) (args : List PyObject)
    (st : Interp) :
    (∀ (cfg : String) (t : Thrown), (PyArg_ParseTuple_s args st).1 = some cfg →
      (lib.SQLite3Accessor cfg "IN" = .error t ∨
        ∃ acc, lib.SQLite3Accessor cfg "IN" = .ok acc ∧
          lib.DatabaseClient RRClass.IN acc = .error t) →
      (DataSourceClient_init lib self args st).1 = -1 ∧
      (DataSourceClient_init lib self args st).2.1 = self ∧
      (DataSourceClient_init lib self args st).2.2.err =
        some (match t.asStdException with
          | some m => ⟨getDataSourceException "Error",
              some ("Failed to construct DataSourceClient object: " ++ m)⟩
          | none => ⟨.PyExc_RuntimeError,
              some "Unexpected exception in constructing DataSourceClient"⟩)) ∧
    ((DataSourceClient_init lib self args st).1 = 0 ↔
      ∃ cfg acc client, (PyArg_ParseTuple_s args st).1 = some cfg ∧
        lib.SQLite3Accessor cfg "IN" = .ok acc ∧
        lib.DatabaseClient RRClass.IN acc = .ok client ∧
        (DataSourceClient_init lib self args st).2.1.cppobj = some client) ∧
    ((DataSourceClient_init lib self args st).1 ≠ 0 →
      (DataSourceClient_init lib self args st).1 = -1 ∧
      (DataSourceClient_init lib self args st).2.1 = self) ∧
    (∀ (cfg : String) (acc : DatabaseAccessor) (client : DataSourceClient),
      (PyArg_ParseTuple_s args st).1 = some cfg →
      lib.SQLite3Accessor cfg "IN" = .ok acc →
      lib.DatabaseClient RRClass.IN acc = .ok client →
      (DataSourceClient_init lib self args st).1 = 0 ∧
      (DataSourceClient_init lib self args st).2.1.cppobj = some client) := by
  unfold DataSourceClient_init
  rcases hp : PyArg_ParseTuple_s args st with ⟨_ | cfg, st1⟩
  · simp
  · dsimp only
    rcases hacc : lib.SQLite3Accessor cfg "IN" with t | acc
    · dsimp only
      refine ⟨?_, ?_, ?_, ?_⟩
      · intro cfg0 t0 hcfg hthrow
        simp only [Option.some.injEq] at hcfg
        subst hcfg
        rcases hthrow with h | ⟨acc, h, _⟩
        · rw [hacc] at h
          cases h
          cases t <;> simp [init_catch, Thrown.asStdException, PyErr_SetString]
        · rw [hacc] at h
          cases h
      · cases t <;> simp [init_catch, Thrown.asStdException, hacc]
      · cases t <;> simp [init_catch, Thrown.asStdException]
      · intro cfg0 acc0 client0 hcfg h1 _
        simp only [Option.some.injEq] at hcfg
        subst hcfg
        rw [hacc] at h1
        cases h1
    · dsimp only
      rcases hcl : lib.DatabaseClient RRClass.IN acc with t | client
      · dsimp only
        refine ⟨?_, ?_, ?_, ?_⟩
        · intro cfg0 t0 hcfg hthrow
          simp only [Option.some.injEq] at hcfg
          subst hcfg
          rcases hthrow with h | ⟨acc0, h, h2⟩
          · rw [hacc] at h
            cases h
          · rw [hacc] at h
            cases h
            rw [hcl] at h2
            cases h2
            cases t <;> simp [init_catch, Thrown.asStdException, PyErr_SetString]
        · cases t <;> simp [init_catch, Thrown.asStdException, hacc, hcl]
        · cases t <;> simp [init_catch, Thrown.asStdException]
        · intro cfg0 acc0 client0 hcfg h1 h2
          simp only [Option.some.injEq] at hcfg
          subst hcfg
          rw [hacc] at h1
          cases h1
          rw [hcl] at h2
          cases h2
      · dsimp only
        refine ⟨?_, ?_, ?_, ?_⟩
        · intro cfg0 t0 hcfg hthrow
          simp only [Option.some.injEq] at hcfg
          subst hcfg
          rcases hthrow with h | ⟨acc0, h, h2⟩
          · rw [hacc] at h
            cases h
          · rw [hacc] at h
            cases h
            rw [hcl] at h2
            cases h2
        · simp [hacc, hcl]
        · simp
        · intro cfg0 acc0 client0 hcfg h1 h2
          simp only [Option.some.injEq] at hcfg
          subst hcfg
          rw [hacc] at h1
          cases h1
          rw [hcl] at h2
          cases h2
          exact ⟨rfl, rfl⟩

/-- The amended C7 on three libraries: an accessor constructor throwing an exception
object, a client constructor throwing one, and constructors that succeed. -/
theorem init_outcome_witness :
    ((DataSourceClient_init noFileLibrary ⟨none⟩ [.Unicode "zone.sqlite3"]
        Interp.clean).1 = -1 ∧
      (DataSourceClient_init noFileLibrary ⟨none⟩ [.Unicode "zone.sqlite3"]
        Interp.clean).2.1 = ⟨none⟩ ∧
      (DataSourceClient_init noFileLibrary ⟨none⟩ [.Unicode "zone.sqlite3"]
        Interp.clean).2.2.err =
        some ⟨getDataSourceException "Error",
          some ("Failed to construct DataSourceClient object: " ++
            "unable to open database file")⟩) ∧
    (DataSourceClient_init badClientLibrary ⟨none⟩ [.Unicode "zone.sqlite3"]
        Interp.clean).1 = -1 ∧
    (DataSourceClient_init goodLibrary ⟨none⟩ [.Unicode "zone.sqlite3"]
        Interp.clean).1 = 0 ∧
    ((DataSourceClient_init goodLibrary ⟨none⟩ [.Unicode "zone.sqlite3"]
        Interp.clean).1 = 0 ∧
      (DataSourceClient_init goodLibrary ⟨none⟩ [.Unicode "zone.sqlite3"]
        Interp.clean).2.1.cppobj = some sampleClient) :=
  ⟨(init_outcome noFileLibrary ⟨none⟩ [.Unicode "zone.sqlite3"] Interp.clean).1
      "zone.sqlite3" (.stdException "unable to open database file") rfl (Or.inl rfl),
   ((init_outcome badClientLibrary ⟨none⟩ [.Unicode "zone.sqlite3"] Interp.clean).2.2.1
      (by decide)).1,
   (init_outcome goodLibrary ⟨none⟩ [.Unicode "zone.sqlite3"] Interp.clean).2.1.2
      ⟨"zone.sqlite3", ⟨7⟩, sampleClient, rfl, rfl, rfl, rfl⟩,
   (init_outcome goodLibrary ⟨none⟩ [.Unicode "zone.sqlite3"] Interp.clean).2.2.2
      "zone.sqlite3" ⟨7⟩ sampleClient rfl rfl rfl⟩

end DataSrc
